import Mathlib

/-!
Verification development for a repository fragment consisting of
`torchrl/modules/planners/mcts.py` (a stub MCTS planner with a search-tree
node class `_MCTSNode`) and `examples/decision_transformer/online_dt.py`
(an online decision-transformer pretraining loop).

The Python code is shallowly embedded: object aliasing is modelled by an
explicit store of node records addressed by `NodeId`, torch tensors of rank
one by lists (with torch's integer-indexing semantics, negative indices
wrapping), Python exceptions by an `Except PyErr` result, real-valued
tensor cells by rationals, and integer tensor cells by `Int`.
-/

namespace RL

/-- Python runtime errors that the embedded fragment can raise. -/
inductive PyErr where
  | attributeError (msg : String)
  | indexError (msg : String)
  | nameError (msg : String)
  | runtimeError (msg : String)
  | zeroDivisionError (msg : String)
deriving Repr, DecidableEq

/-- Opaque token standing for a `TensorDict` state snapshot; the MCTS node
code stores it but never inspects it. -/
abbrev TensorDictTok := Nat

/-- Opaque token standing for an `EnvBase` environment; the MCTS node code
stores it but never inspects it. -/
abbrev EnvBaseTok := Nat

/-- Address of a node object in the store (Python object identity). -/
abbrev NodeId := Nat

/-- The fields of a `_MCTSNode` object, exactly as assigned in
`_MCTSNode.__init__` (mcts.py lines 38-60).  Note: the `c_PUCT` constructor
parameter is NOT among them — the source never assigns `self.c_PUCT`. -/
structure NodeData where
  state : TensorDictTok
  n_actions : Int
  env : EnvBaseTok
  parent : Option NodeId
  children : List (Int × NodeId)
  prev_action : Int
  _is_expanded : Bool
  _n_vlosses : Int
  _child_visit_count : List Int
  _child_total_value : List Rat
  _original_prior : List Rat
  _child_prior : List Rat
deriving Repr, DecidableEq

/-- The heap: Python node objects addressed by `NodeId`. -/
abbrev Store := List NodeData

/-- torch 1-D integer indexing: an index `i` with `-len ≤ i < len` is valid,
a negative one counting from the end; anything else raises `IndexError`.
Returns the effective (non-negative) position. -/
def torchIdx (len : Nat) (i : Int) : Option Nat :=
  if 0 ≤ i then
    if i < (len : Int) then some i.toNat else none
  else
    if -(len : Int) ≤ i then some (i + (len : Int)).toNat else none

/-- Read cell `i` of a 1-D tensor under torch indexing semantics. -/
def torchGetCell {α : Type} (l : List α) (i : Int) : Option α :=
  (torchIdx l.length i).bind fun k => l[k]?

/-- Write cell `i` of a 1-D tensor under torch indexing semantics. -/
def torchSetCell {α : Type} (l : List α) (i : Int) (v : α) : Option (List α) :=
  (torchIdx l.length i).map fun k => l.set k v

/-- Model of `torch.zeros([n], dtype=torch.long)`: a zero tensor of length `n`;
a negative dimension raises a `RuntimeError`. -/
def torchZerosInt (n : Int) : Except PyErr (List Int) :=
  if 0 ≤ n then .ok (List.replicate n.toNat 0)
  else .error (.runtimeError "Trying to create tensor with negative dimension")

/-- Model of `torch.zeros([n])` (default float dtype, modelled by `Rat`). -/
def torchZerosRat (n : Int) : Except PyErr (List Rat) :=
  if 0 ≤ n then .ok (List.replicate n.toNat 0)
  else .error (.runtimeError "Trying to create tensor with negative dimension")

/-- Constructor `_MCTSNode.__init__` (mcts.py lines 38-60): stores the arguments and
initializes the bookkeeping fields; the only operations that can raise are
the four `torch.zeros` allocations (on a negative `n_actions`).  The
`c_PUCT` parameter is accepted and dropped (never assigned to `self`). -/
def mkMCTSNode (state : TensorDictTok) (n_actions : Int) (env : EnvBaseTok)
    (parent : Option NodeId) (prev_action : Int) (c_PUCT : Rat) :
    Except PyErr NodeData := do
  let vc ← torchZerosInt n_actions
  let tv ← torchZerosRat n_actions
  let op ← torchZerosRat n_actions
  let cp ← torchZerosRat n_actions
  let _ := c_PUCT
  .ok { state := state, n_actions := n_actions, env := env, parent := parent,
        children := [], prev_action := prev_action,
        _is_expanded := false, _n_vlosses := 0,
        _child_visit_count := vc, _child_total_value := tv,
        _original_prior := op, _child_prior := cp }

/-- Getter `visit_count` (mcts.py lines 62-64):
`return self.parent._child_visit_count[self.prev_action]`.
On the root (`parent is None`) the attribute access on `None` raises
`AttributeError`; an invalid tensor index raises `IndexError`. -/
def visit_count_get (s : Store) (nid : NodeId) : Except PyErr Int :=
  match s[nid]? with
  | none => .error (.runtimeError "invalid node reference")
  | some nd =>
    match nd.parent with
    | none => .error (.attributeError "NoneType object has no attribute _child_visit_count")
    | some pid =>
      match s[pid]? with
      | none => .error (.runtimeError "invalid node reference")
      | some pd =>
        match torchGetCell pd._child_visit_count nd.prev_action with
        | none => .error (.indexError "index out of range")
        | some x => .ok x

/-- Setter `visit_count` (mcts.py lines 66-68):
`self.parent._child_visit_count[self.prev_action] = value`. -/
def visit_count_set (s : Store) (nid : NodeId) (v : Int) : Except PyErr Store :=
  match s[nid]? with
  | none => .error (.runtimeError "invalid node reference")
  | some nd =>
    match nd.parent with
    | none => .error (.attributeError "NoneType object has no attribute _child_visit_count")
    | some pid =>
      match s[pid]? with
      | none => .error (.runtimeError "invalid node reference")
      | some pd =>
        match torchSetCell pd._child_visit_count nd.prev_action v with
        | none => .error (.indexError "index out of range")
        | some arr => .ok (s.set pid { pd with _child_visit_count := arr })

/-- Getter `total_value` (mcts.py lines 70-72):
`return self.parent._child_total_value[self.prev_action]`. -/
def total_value_get (s : Store) (nid : NodeId) : Except PyErr Rat :=
  match s[nid]? with
  | none => .error (.runtimeError "invalid node reference")
  | some nd =>
    match nd.parent with
    | none => .error (.attributeError "NoneType object has no attribute _child_total_value")
    | some pid =>
      match s[pid]? with
      | none => .error (.runtimeError "invalid node reference")
      | some pd =>
        match torchGetCell pd._child_total_value nd.prev_action with
        | none => .error (.indexError "index out of range")
        | some x => .ok x

/-- Setter `total_value` (mcts.py lines 74-76):
`self.parent._child_total_value[self.prev_action] = value`. -/
def total_value_set (s : Store) (nid : NodeId) (v : Rat) : Except PyErr Store :=
  match s[nid]? with
  | none => .error (.runtimeError "invalid node reference")
  | some nd =>
    match nd.parent with
    | none => .error (.attributeError "NoneType object has no attribute _child_total_value")
    | some pid =>
      match s[pid]? with
      | none => .error (.runtimeError "invalid node reference")
      | some pd =>
        match torchSetCell pd._child_total_value nd.prev_action v with
        | none => .error (.indexError "index out of range")
        | some arr => .ok (s.set pid { pd with _child_total_value := arr })

/-- Property `action_value` (mcts.py lines 78-80):
`return self.total_value / (1 + self.visit_count)` — Python evaluates the
left operand (`total_value`) first, then `visit_count`; no value is stored. -/
def action_value (s : Store) (nid : NodeId) : Except PyErr Rat :=
  match total_value_get s nid with
  | .error e => .error e
  | .ok tv =>
    match visit_count_get s nid with
    | .error e => .error e
    | .ok vc => .ok (tv / (1 + (vc : Rat)))

/-- The names bound at module level in mcts.py: the `__future__` import, the
three imports, and the two class statements.  `c_PUCT` and `math` are NOT
among them (`c_PUCT` is only a local parameter of `__init__`; `math` is
never imported). -/
def mctsModuleGlobals : List String :=
  ["annotations", "torch", "Dict", "TensorDict", "EnvBase",
   "MCTSPlanner", "_MCTSNode"]

/-- The instance attributes a `_MCTSNode` object carries (assigned in
`__init__`) together with the properties defined on the class.  `N`,
`child_N` and `child_prior` are NOT among them. -/
def mctsNodeAttrs : List String :=
  ["state", "n_actions", "env", "parent", "children", "prev_action",
   "_is_expanded", "_n_vlosses", "_child_visit_count", "_child_total_value",
   "_original_prior", "_child_prior",
   "visit_count", "total_value", "action_value", "child_U"]

/-- Property `child_U` (mcts.py lines 82-85):
`return (c_PUCT * math.sqrt(1 + self.N) * self.child_prior / (1 + self.child_N))`.
Python evaluates the expression left to right: first the global lookup of
`c_PUCT`, then of `math`, then the attribute lookups `self.N`,
`self.child_prior`, `self.child_N`.  Each lookup is resolved against the
module globals resp. the node attributes; an unresolved global raises
`NameError`, an unresolved attribute `AttributeError`.  The arithmetic is
never reached when a lookup fails. -/
def child_U (s : Store) (nid : NodeId) : Except PyErr Rat :=
  match s[nid]? with
  | none => .error (.runtimeError "invalid node reference")
  | some _ =>
    if mctsModuleGlobals.contains "c_PUCT" = false then
      .error (.nameError "name c_PUCT is not defined")
    else if mctsModuleGlobals.contains "math" = false then
      .error (.nameError "name math is not defined")
    else if mctsNodeAttrs.contains "N" = false then
      .error (.attributeError "_MCTSNode object has no attribute N")
    else if mctsNodeAttrs.contains "child_prior" = false then
      .error (.attributeError "_MCTSNode object has no attribute child_prior")
    else if mctsNodeAttrs.contains "child_N" = false then
      .error (.attributeError "_MCTSNode object has no attribute child_N")
    else
      .error (.runtimeError "unreachable: the formula has unresolved names")

/-! ## The decision-transformer pretraining loop (online_dt.py)

The loop is projected onto the variables the claims are about: the
gradient of the primary (transformer) model inside one iteration, and the
logging state `r0`, `l0`, `eval_td`, plus the per-iteration logged
evaluation reward.  The transformer loss at iteration `i` and the raw
rollout reward (`eval_td["next","reward"].sum(1).mean().item()`) that a
rollout started at iteration `i` would produce are abstracted as functions
`loss, rollout : Nat → Rat` of the iteration index. -/

/-- Model of `torch.nn.utils.clip_grad_norm_` on a one-parameter model: with total
gradient norm `|g|`, the gradients are scaled by
`min(max_norm / (total_norm + 1e-6), 1.0)`, exactly torch's clip
coefficient. -/
def clip_grad_norm (max_norm g : Rat) : Rat :=
  min (max_norm / (|g| + 1/1000000)) 1 * g

/-- The primary-model update of one pretraining iteration exactly in the
order written in online_dt.py lines 73-76: `transformer_optim.zero_grad()`;
`torch.nn.utils.clip_grad_norm_(policy.parameters(), clip_grad)`;
`transformer_loss.backward()` (which ACCUMULATES the fresh gradient
`fresh`); then `transformer_optim.step()` consumes the resulting gradient,
which this function returns. -/
def codeTransformerUpdate (clip_grad fresh : Rat) : Rat :=
  let g1 : Rat := 0
  let g2 := clip_grad_norm clip_grad g1
  let g3 := g2 + fresh
  g3

/-- The update order the spec describes: zero the gradients, backpropagate,
clip at the threshold, then step.  Returns the gradient the step consumes. -/
def claimTransformerUpdate (clip_grad fresh : Rat) : Rat :=
  let g1 : Rat := 0
  let g2 := g1 + fresh
  clip_grad_norm clip_grad g2

/-- The logging state of the pretraining loop: the baselines `r0` and `l0`
(Python `None` before first assignment), the rollout result variable
`eval_td` (unbound before the first rollout, holding the raw reward
statistic of the last rollout afterwards), and the sequence of
`(iteration, eval_reward)` pairs logged/displayed so far. -/
structure DTState where
  r0 : Option Rat
  l0 : Option Rat
  eval_td : Option Rat
  log : List (Nat × Rat)
deriving Repr, DecidableEq

/-- The state before the loop: `r0 = None`, `l0 = None`, `eval_td` unbound,
nothing logged. -/
def dtInit : DTState := { r0 := none, l0 := none, eval_td := none, log := [] }

/-- One iteration `i` of the pretraining loop (online_dt.py lines 65-107),
projected onto the logging state:
a rollout runs iff `i % pretrain_log_interval == 0` (`i % 0` raises
`ZeroDivisionError`), rebinding `eval_td`; `r0` is assigned once, from
`eval_td`, divided by `reward_scaling`; `l0` is assigned once from the
current transformer loss; `eval_reward` is recomputed from `eval_td` every
iteration and logged and displayed; using `eval_td` before any rollout
would raise `NameError`. -/
def dtStep (loss rollout : Nat → Rat) (interval : Nat) (reward_scaling : Rat)
    (st : DTState) (i : Nat) : Except PyErr DTState :=
  if interval = 0 then .error (.zeroDivisionError "integer modulo by zero")
  else
    let td := if i % interval = 0 then some (rollout i) else st.eval_td
    match td with
    | none => .error (.nameError "name eval_td is not defined")
    | some e =>
      let r0 := match st.r0 with
        | none => some (e / reward_scaling)
        | some r => some r
      let l0 := match st.l0 with
        | none => some (loss i)
        | some l => some l
      let eval_reward := e / reward_scaling
      .ok { r0 := r0, l0 := l0, eval_td := td,
            log := st.log ++ [(i, eval_reward)] }

/-- The pretraining loop after `n` iterations (`for i in
range(pretrain_gradient_steps)`), starting from `dtInit`. -/
def dtRun (loss rollout : Nat → Rat) (interval : Nat) (reward_scaling : Rat) :
    Nat → Except PyErr DTState
  | 0 => .ok dtInit
  | n + 1 =>
    match dtRun loss rollout interval reward_scaling n with
    | .error e => .error e
    | .ok st => dtStep loss rollout interval reward_scaling st n

/-- The iteration index of the most recent rollout at or before iteration
`i`, for a logging cadence `interval`: the largest multiple of `interval`
that is at most `i`. -/
def lastRoll (interval i : Nat) : Nat := interval * (i / interval)

/-! ## Concrete example objects (used to instantiate the theorems) -/

/-- A root node (no parent) with two actions and nonzero statistics,
as it would look after some search bookkeeping. -/
def demoRoot : NodeData :=
  { state := 0, n_actions := 2, env := 0, parent := none, children := [],
    prev_action := 0, _is_expanded := false, _n_vlosses := 0,
    _child_visit_count := [5, 7], _child_total_value := [3, 4],
    _original_prior := [0, 0], _child_prior := [0, 0] }

/-- A child of `demoRoot` reached by action `0`. -/
def demoChild : NodeData :=
  { state := 1, n_actions := 2, env := 0, parent := some 0, children := [],
    prev_action := 0, _is_expanded := false, _n_vlosses := 0,
    _child_visit_count := [0, 0], _child_total_value := [0, 0],
    _original_prior := [0, 0], _child_prior := [0, 0] }

/-- A node claiming `demoRoot` as parent with the negative action index `-1`. -/
def demoChildNeg : NodeData :=
  { state := 2, n_actions := 2, env := 0, parent := some 0, children := [],
    prev_action := -1, _is_expanded := false, _n_vlosses := 0,
    _child_visit_count := [0, 0], _child_total_value := [0, 0],
    _original_prior := [0, 0], _child_prior := [0, 0] }

/-- A node claiming `demoRoot` as parent with the too-large action index `5`. -/
def demoChildBig : NodeData :=
  { state := 3, n_actions := 2, env := 0, parent := some 0, children := [],
    prev_action := 5, _is_expanded := false, _n_vlosses := 0,
    _child_visit_count := [0, 0], _child_total_value := [0, 0],
    _original_prior := [0, 0], _child_prior := [0, 0] }

/-- A four-object store: node `0` is `demoRoot`, node `1` is `demoChild`,
node `2` is `demoChildNeg`, node `3` is `demoChildBig`. -/
def demoStore : Store := [demoRoot, demoChild, demoChildNeg, demoChildBig]

/-! ## Helper lemmas about the torch indexing model -/

theorem torchIdx_ofNat (len a : Nat) (h : a < len) :
    torchIdx len (a : Int) = some a := by
  simp [torchIdx, Int.ofNat_lt.mpr h]

theorem torchIdx_out (len : Nat) (i : Int)
    (h : i < -(len : Int) ∨ (len : Int) ≤ i) : torchIdx len i = none := by
  rcases h with h | h
  · have h0 : ¬ (0 : Int) ≤ i := by omega
    have h1 : ¬ -(len : Int) ≤ i := by omega
    simp [torchIdx, h0, h1]
  · have h1 : ¬ i < (len : Int) := by omega
    have h0 : (0 : Int) ≤ i := by omega
    simp [torchIdx, h0, h1]

theorem torchGetCell_ofNat {α : Type} (l : List α) (a : Nat) (h : a < l.length) :
    torchGetCell l (a : Int) = l[a]? := by
  simp [torchGetCell, torchIdx_ofNat l.length a h]

theorem torchSetCell_ofNat {α : Type} (l : List α) (a : Nat) (v : α)
    (h : a < l.length) : torchSetCell l (a : Int) v = some (l.set a v) := by
  simp [torchSetCell, torchIdx_ofNat l.length a h]

/-- Evaluation of `_MCTSNode.__init__` on a non-negative action count
(shared by several theorems below). -/
theorem mkMCTSNode_ok (state : TensorDictTok) (n_actions : Int)
    (env : EnvBaseTok) (parent : Option NodeId) (prev_action : Int)
    (c_PUCT : Rat) (hn : 0 ≤ n_actions) :
    mkMCTSNode state n_actions env parent prev_action c_PUCT =
      .ok { state := state, n_actions := n_actions, env := env,
            parent := parent, children := [], prev_action := prev_action,
            _is_expanded := false, _n_vlosses := 0,
            _child_visit_count := List.replicate n_actions.toNat 0,
            _child_total_value := List.replicate n_actions.toNat 0,
            _original_prior := List.replicate n_actions.toNat 0,
            _child_prior := List.replicate n_actions.toNat 0 } := by
  simp only [mkMCTSNode, torchZerosInt, torchZerosRat, if_pos hn]
  rfl

/-- C7: `_MCTSNode.__init__` on a non-negative action count stores the given
state, action count, environment, parent and previous action unchanged,
sets the expansion flag to false and the virtual-loss count to 0, allocates
four zero-filled arrays of length `n_actions` (the visit counts over `Int`,
the rest over `Rat`), and leaves the child mapping empty. -/
theorem C7_init_fields (state : TensorDictTok) (n_actions : Int)
    (env : EnvBaseTok) (parent : Option NodeId) (prev_action : Int)
    (c_PUCT : Rat) (hn : 0 ≤ n_actions) :
    mkMCTSNode state n_actions env parent prev_action c_PUCT =
      .ok { state := state, n_actions := n_actions, env := env,
            parent := parent, children := [], prev_action := prev_action,
            _is_expanded := false, _n_vlosses := 0,
            _child_visit_count := List.replicate n_actions.toNat 0,
            _child_total_value := List.replicate n_actions.toNat 0,
            _original_prior := List.replicate n_actions.toNat 0,
            _child_prior := List.replicate n_actions.toNat 0 } :=
  mkMCTSNode_ok state n_actions env parent prev_action c_PUCT hn

/-- Witness for C7 at a concrete input: three actions, a parent reference
and action index 1. -/
theorem C7_init_fields_witness :
    mkMCTSNode 5 3 7 (some 0) 1 (138/100) =
      .ok { state := 5, n_actions := 3, env := 7,
            parent := some 0, children := [], prev_action := 1,
            _is_expanded := false, _n_vlosses := 0,
            _child_visit_count := List.replicate (Int.toNat 3) 0,
            _child_total_value := List.replicate (Int.toNat 3) 0,
            _original_prior := List.replicate (Int.toNat 3) 0,
            _child_prior := List.replicate (Int.toNat 3) 0 } :=
  C7_init_fields 5 3 7 (some 0) 1 (138/100) (by decide)

/-- C6: evaluating the `child_U` property on any node object fails with the
undefined-name error on `c_PUCT` (the first name the expression evaluates);
the math-library name `math` is likewise absent from the module globals and
the total-visit-count attribute `N` is absent from the node's attributes,
so no input makes `child_U` return a value. -/
theorem C6_child_U_undefined (s : Store) (nid : NodeId) (nd : NodeData)
    (h : s[nid]? = some nd) :
    child_U s nid = .error (.nameError "name c_PUCT is not defined") ∧
    mctsModuleGlobals.contains "math" = false ∧
    mctsNodeAttrs.contains "N" = false := by
  refine ⟨?_, by decide, by decide⟩
  simp [child_U, h, mctsModuleGlobals]

/-- Witness for C6: the child node of the example store. -/
theorem C6_child_U_undefined_witness :
    child_U demoStore 1 = .error (.nameError "name c_PUCT is not defined") ∧
    mctsModuleGlobals.contains "math" = false ∧
    mctsNodeAttrs.contains "N" = false :=
  C6_child_U_undefined demoStore 1 demoChild rfl

/-- C3 (bug evidence): in the loop body the clipping call precedes
`backward()`, so it rescales the just-zeroed gradients and the gradient the
primary optimizer's step consumes is the raw backward gradient.  With
threshold `clip_grad = 1` and a backward gradient of norm `2`, the step
consumes a gradient of norm `2 > 1`, while the order the spec describes
(zero, backward, clip, step) would give a gradient of norm at most `1`. -/
theorem C3_clip_before_backward_bug :
    codeTransformerUpdate 1 2 = 2 ∧
    ¬ |codeTransformerUpdate 1 2| ≤ 1 ∧
    |claimTransformerUpdate 1 2| ≤ 1 := by
  have habs : |(2 : Rat)| = 2 := abs_of_nonneg (by norm_num)
  have hcode : codeTransformerUpdate 1 2 = 2 := by
    simp [codeTransformerUpdate, clip_grad_norm]
  refine ⟨hcode, ?_, ?_⟩
  · rw [hcode, habs]
    norm_num
  · have hg : ((0 : Rat) + 2) = 2 := by norm_num
    simp only [claimTransformerUpdate, clip_grad_norm, hg, habs]
    have hmin : min ((1 : Rat) / (2 + 1/1000000)) 1 = 1 / (2 + 1/1000000) := by
      apply min_eq_left
      norm_num
    rw [hmin]
    have hnn : (0 : Rat) ≤ 1 / (2 + 1/1000000) * 2 := by positivity
    rw [abs_of_nonneg hnn]
    norm_num

/-- C1: for a node with a parent and a valid `prev_action = a`, reading
`visit_count` (resp. `total_value`) returns exactly cell `a` of the
parent's `_child_visit_count` (resp. `_child_total_value`) array, and
writing it produces a store in which the parent differs only by setting
cell `a` of that one array (all its other cells and all other fields are
pinned by the record update), while every other object of the store — in
particular the child itself — is unchanged. -/
theorem C1_child_stats_alias_parent_cell (s : Store) (nid pid : NodeId)
    (nd pd : NodeData) (a : Nat) (v : Int) (w : Rat)
    (hn : s[nid]? = some nd) (hp : nd.parent = some pid)
    (hpd : s[pid]? = some pd)
    (ha : nd.prev_action = (a : Int))
    (h1 : a < pd._child_visit_count.length)
    (h2 : a < pd._child_total_value.length) :
    (∃ x, pd._child_visit_count[a]? = some x ∧ visit_count_get s nid = .ok x) ∧
    (∃ y, pd._child_total_value[a]? = some y ∧ total_value_get s nid = .ok y) ∧
    (∃ s', visit_count_set s nid v = .ok s' ∧
      s'[pid]? = some { pd with _child_visit_count := pd._child_visit_count.set a v } ∧
      (∀ j, j ≠ a → (pd._child_visit_count.set a v)[j]? = pd._child_visit_count[j]?) ∧
      (∀ m, m ≠ pid → s'[m]? = s[m]?)) ∧
    (∃ s', total_value_set s nid w = .ok s' ∧
      s'[pid]? = some { pd with _child_total_value := pd._child_total_value.set a w } ∧
      (∀ j, j ≠ a → (pd._child_total_value.set a w)[j]? = pd._child_total_value[j]?) ∧
      (∀ m, m ≠ pid → s'[m]? = s[m]?)) := by
  have hplt : pid < s.length := by
    rcases List.getElem?_eq_some_iff.mp hpd with ⟨h, _⟩
    exact h
  refine ⟨?_, ?_, ?_, ?_⟩
  · exact ⟨pd._child_visit_count[a], List.getElem?_eq_getElem h1, by
      simp [visit_count_get, hn, hp, hpd, ha, torchGetCell_ofNat _ _ h1,
            List.getElem?_eq_getElem h1]⟩
  · exact ⟨pd._child_total_value[a], List.getElem?_eq_getElem h2, by
      simp [total_value_get, hn, hp, hpd, ha, torchGetCell_ofNat _ _ h2,
            List.getElem?_eq_getElem h2]⟩
  · refine ⟨s.set pid { pd with _child_visit_count := pd._child_visit_count.set a v },
      ?_, ?_, ?_, ?_⟩
    · simp [visit_count_set, hn, hp, hpd, ha, torchSetCell_ofNat _ _ _ h1]
    · exact List.getElem?_set_self hplt
    · intro j hj
      exact List.getElem?_set_ne (Ne.symm hj)
    · intro m hm
      exact List.getElem?_set_ne (Ne.symm hm)
  · refine ⟨s.set pid { pd with _child_total_value := pd._child_total_value.set a w },
      ?_, ?_, ?_, ?_⟩
    · simp [total_value_set, hn, hp, hpd, ha, torchSetCell_ofNat _ _ _ h2]
    · exact List.getElem?_set_self hplt
    · intro j hj
      exact List.getElem?_set_ne (Ne.symm hj)
    · intro m hm
      exact List.getElem?_set_ne (Ne.symm hm)

/-- Witness for C1: the child node `1` of the example store aliases cell 0
of the root's visit-count array. -/
theorem C1_child_stats_alias_parent_cell_witness :
    ∃ x, demoRoot._child_visit_count[0]? = some x ∧
      visit_count_get demoStore 1 = .ok x :=
  (C1_child_stats_alias_parent_cell demoStore 1 0 demoChild demoRoot 0 9 (5/2)
    rfl rfl rfl rfl (by decide) (by decide)).1

/-- C2: on any node where both getters succeed with `visit_count = n` and
`total_value = v` and `n ≥ 0`, the derived accessor `action_value` returns
exactly `v / (1 + n)`, and the divisor `1 + n` is nonzero (no division by
zero, including the unvisited case `n = 0`); the `NodeData` record stores
no such value — it is recomputed from the two getters. -/
theorem C2_action_value_formula (s : Store) (nid : NodeId) (n : Int) (v : Rat)
    (hv : visit_count_get s nid = .ok n)
    (ht : total_value_get s nid = .ok v)
    (hn : 0 ≤ n) :
    action_value s nid = .ok (v / (1 + (n : Rat))) ∧ (1 + (n : Rat)) ≠ 0 := by
  constructor
  · simp [action_value, hv, ht]
  · have h : (0 : Rat) ≤ (n : Rat) := by exact_mod_cast hn
    linarith

/-- Witness for C2: child `1` of the example store has visit count 5 and
total value 3, so `action_value` is `3 / 6`. -/
theorem C2_action_value_formula_witness :
    action_value demoStore 1 = .ok ((3 : Rat) / (1 + ((5 : Int) : Rat))) ∧
    (1 + ((5 : Int) : Rat)) ≠ 0 :=
  C2_action_value_formula demoStore 1 5 3 rfl rfl (by decide)

/-- C4: on a node constructed without a parent, both reading and writing
`visit_count` fail with the defined error raised by the attribute access on
`None` (Python's `AttributeError`); no value is returned and no store is
produced. -/
theorem C4_root_visit_count_fails (s : Store) (nid : NodeId) (nd : NodeData)
    (v : Int) (hn : s[nid]? = some nd) (hp : nd.parent = none) :
    visit_count_get s nid =
      .error (.attributeError "NoneType object has no attribute _child_visit_count") ∧
    visit_count_set s nid v =
      .error (.attributeError "NoneType object has no attribute _child_visit_count") := by
  constructor <;> simp [visit_count_get, visit_count_set, hn, hp]

/-- Witness for C4: the root of the example store. -/
theorem C4_root_visit_count_fails_witness :
    visit_count_get demoStore 0 =
      .error (.attributeError "NoneType object has no attribute _child_visit_count") ∧
    visit_count_set demoStore 0 9 =
      .error (.attributeError "NoneType object has no attribute _child_visit_count") :=
  C4_root_visit_count_fails demoStore 0 demoRoot 9 rfl rfl

/-- Counterexample to C5 as stated: node `2` of the example store has
`prev_action = -1`, outside `[0, n_actions) = [0, 2)`, yet reading
`visit_count` does NOT fail — torch wraps the negative index and silently
returns cell `1` of the parent's array (value 7), and writing silently
succeeds as well. -/
theorem C5_counterexample_negative_index :
    demoChildNeg.prev_action = -1 ∧
    ¬ (0 ≤ demoChildNeg.prev_action ∧ demoChildNeg.prev_action < 2) ∧
    demoStore[2]? = some demoChildNeg ∧
    demoChildNeg.parent = some 0 ∧
    demoStore[0]? = some demoRoot ∧
    demoRoot._child_visit_count.length = 2 ∧
    visit_count_get demoStore 2 = .ok 7 ∧
    (∃ s', visit_count_set demoStore 2 9 = .ok s') := by
  refine ⟨rfl, by decide, rfl, rfl, rfl, rfl, rfl, ⟨_, rfl⟩⟩

/-- C5 (amended): an action index below `-n_actions` or at least
`n_actions` makes both reading and writing of `visit_count` and
`total_value` fail with an index-range error; a negative index within
`[-n_actions, 0)` instead silently wraps to cell `n_actions + prev_action`
(torch indexing), as the counterexample shows. -/
theorem C5_out_of_range_index_fails (s : Store) (nid pid : NodeId)
    (nd pd : NodeData) (v : Int) (w : Rat)
    (hn : s[nid]? = some nd) (hp : nd.parent = some pid)
    (hpd : s[pid]? = some pd)
    (hlen : pd._child_total_value.length = pd._child_visit_count.length)
    (hout : nd.prev_action < -((pd._child_visit_count.length : Nat) : Int) ∨
            ((pd._child_visit_count.length : Nat) : Int) ≤ nd.prev_action) :
    visit_count_get s nid = .error (.indexError "index out of range") ∧
    visit_count_set s nid v = .error (.indexError "index out of range") ∧
    total_value_get s nid = .error (.indexError "index out of range") ∧
    total_value_set s nid w = .error (.indexError "index out of range") := by
  have hv : torchIdx pd._child_visit_count.length nd.prev_action = none :=
    torchIdx_out _ _ hout
  have ht : torchIdx pd._child_total_value.length nd.prev_action = none := by
    rw [hlen]
    exact torchIdx_out _ _ hout
  refine ⟨?_, ?_, ?_, ?_⟩ <;>
    simp [visit_count_get, visit_count_set, total_value_get, total_value_set,
          torchGetCell, torchSetCell, hn, hp, hpd, hv, ht]

/-- Witness for the amended C5: node `3` of the example store has
`prev_action = 5 ≥ 2`, and all four accessor operations fail. -/
theorem C5_out_of_range_index_fails_witness :
    visit_count_get demoStore 3 = .error (.indexError "index out of range") ∧
    visit_count_set demoStore 3 9 = .error (.indexError "index out of range") ∧
    total_value_get demoStore 3 = .error (.indexError "index out of range") ∧
    total_value_set demoStore 3 (5/2) = .error (.indexError "index out of range") :=
  C5_out_of_range_index_fails demoStore 3 0 demoChildBig demoRoot 9 (5/2)
    rfl rfl rfl rfl (by decide)

/-- Counterexample to C10 as stated: construction does not accept EVERY
argument combination — a negative action count makes the `torch.zeros`
allocation inside `__init__` raise a `RuntimeError`. -/
theorem C10_counterexample_negative_dim :
    mkMCTSNode 0 (-1) 0 none 0 (138/100) =
      .error (.runtimeError "Trying to create tensor with negative dimension") := rfl

/-- C10 (amended): for every non-negative action count, construction
performs no validation and never fails — the parent may be absent and
`prev_action` may be any integer, both stored unchanged and unchecked
against anything — and an inconsistency such as a missing parent surfaces
only when an accessor is first used (here: on the root, all three
accessors fail). -/
theorem C10_no_validation_at_init (state : TensorDictTok) (n_actions : Int)
    (env : EnvBaseTok) (parent : Option NodeId) (prev_action : Int)
    (c_PUCT : Rat) (hn : 0 ≤ n_actions) :
    ∃ nd, mkMCTSNode state n_actions env parent prev_action c_PUCT = .ok nd ∧
      nd.parent = parent ∧ nd.prev_action = prev_action ∧
      nd.n_actions = n_actions ∧
      (parent = none →
        visit_count_get [nd] 0 =
          .error (.attributeError "NoneType object has no attribute _child_visit_count") ∧
        total_value_get [nd] 0 =
          .error (.attributeError "NoneType object has no attribute _child_total_value") ∧
        action_value [nd] 0 =
          .error (.attributeError "NoneType object has no attribute _child_total_value")) := by
  refine ⟨_, mkMCTSNode_ok state n_actions env parent prev_action c_PUCT hn,
    rfl, rfl, rfl, ?_⟩
  intro hpar
  subst hpar
  refine ⟨?_, ?_, ?_⟩ <;>
    simp [visit_count_get, total_value_get, action_value]

/-- Witness for the amended C10: a root constructed with the inconsistent
action index `-5` and no parent. -/
theorem C10_no_validation_at_init_witness :
    ∃ nd, mkMCTSNode 0 2 0 none (-5) (138/100) = .ok nd ∧
      nd.parent = none ∧ nd.prev_action = -5 ∧
      nd.n_actions = 2 ∧
      (none = (none : Option NodeId) →
        visit_count_get [nd] 0 =
          .error (.attributeError "NoneType object has no attribute _child_visit_count") ∧
        total_value_get [nd] 0 =
          .error (.attributeError "NoneType object has no attribute _child_total_value") ∧
        action_value [nd] 0 =
          .error (.attributeError "NoneType object has no attribute _child_total_value")) :=
  C10_no_validation_at_init 0 2 0 none (-5) (138/100) (by decide)

/-! ## The pretraining loop: closed form of the logging state -/

theorem lastRoll_zero (interval : Nat) : lastRoll interval 0 = 0 := by
  simp [lastRoll]

theorem lastRoll_of_mod_eq_zero (interval i : Nat) (h : i % interval = 0) :
    lastRoll interval i = i :=
  Nat.mul_div_cancel' (Nat.dvd_of_mod_eq_zero h)

theorem lastRoll_of_not_dvd (interval j : Nat) (h : ¬ (j + 1) % interval = 0) :
    lastRoll interval (j + 1) = lastRoll interval j := by
  unfold lastRoll
  rw [Nat.succ_div_of_not_dvd fun hd => h (Nat.mod_eq_zero_of_dvd hd)]

theorem lastRoll_succ (interval k : Nat) (hk : 1 ≤ k) :
    lastRoll interval k =
      if k % interval = 0 then k else lastRoll interval (k - 1) := by
  by_cases hmod : k % interval = 0
  · rw [if_pos hmod]
    exact lastRoll_of_mod_eq_zero interval k hmod
  · rw [if_neg hmod]
    obtain ⟨j, rfl⟩ : ∃ j, k = j + 1 := ⟨k - 1, by omega⟩
    simpa using lastRoll_of_not_dvd interval j hmod

/-- Closed form of the loop's logging state after `n ≥ 1` iterations, for
any positive logging cadence: the baselines hold the iteration-0 values,
`eval_td` holds the result of the most recent rollout, and every iteration
logged the reward of the most recent rollout at or before it. -/
theorem dtRun_closed_form (loss rollout : Nat → Rat) (interval : Nat)
    (rs : Rat) (hi : 1 ≤ interval) :
    ∀ n, 1 ≤ n →
      dtRun loss rollout interval rs n =
        .ok { r0 := some (rollout 0 / rs), l0 := some (loss 0),
              eval_td := some (rollout (lastRoll interval (n - 1))),
              log := (List.range n).map
                fun i => (i, rollout (lastRoll interval i) / rs) } := by
  have hne : interval ≠ 0 := by omega
  intro n
  induction n with
  | zero =>
    intro h
    exact absurd h (by decide)
  | succ k ih =>
    intro _
    by_cases hk : k = 0
    · subst hk
      simp only [dtRun, dtStep, dtInit, if_neg hne, Nat.zero_mod, if_pos]
      simp [List.range_succ, lastRoll_zero]
    · have hk1 : 1 ≤ k := by
        omega
      have hlast := lastRoll_succ interval k hk1
      simp only [dtRun, ih hk1]
      simp only [dtStep, if_neg hne]
      by_cases hmod : k % interval = 0
      · rw [if_pos hmod] at hlast
        simp [hmod, List.range_succ, Nat.add_sub_cancel, hlast]
      · rw [if_neg hmod] at hlast
        simp [hmod, List.range_succ, Nat.add_sub_cancel, hlast]

/-- C8: after any `n ≥ 1` iterations of the pretraining loop (with a
positive logging cadence), the displayed baselines are exactly the values
of iteration 0 — `l0` the transformer loss of iteration 0 and `r0` the
scaled evaluation reward of the rollout of iteration 0 — never reassigned
by a later iteration. -/
theorem C8_baseline_capture (loss rollout : Nat → Rat) (interval : Nat)
    (rs : Rat) (n : Nat) (hi : 1 ≤ interval) (hn : 1 ≤ n) :
    ∃ st, dtRun loss rollout interval rs n = .ok st ∧
      st.l0 = some (loss 0) ∧ st.r0 = some (rollout 0 / rs) :=
  ⟨_, dtRun_closed_form loss rollout interval rs hi n hn, rfl, rfl⟩

/-- Witness for C8: three iterations with cadence 2. -/
theorem C8_baseline_capture_witness :
    ∃ st, dtRun (fun i => (i : Rat)) (fun i => (i : Rat)) 2 1 3 = .ok st ∧
      st.l0 = some (((0 : Nat) : Rat)) ∧
      st.r0 = some (((0 : Nat) : Rat) / 1) :=
  C8_baseline_capture (fun i => (i : Rat)) (fun i => (i : Rat)) 2 1 3
    (by decide) (by decide)

/-- C9: with a positive logging cadence, a scaled evaluation reward is
logged at every iteration, and the value logged at iteration `i` is the
reward of the rollout executed at `lastRoll interval i`, the most recent
multiple of the cadence at or before `i` (hence iteration 0 always runs a
rollout, and every iteration off the cadence reuses the stale `eval_td` of
the last on-cadence iteration). -/
theorem C9_eval_reward_stale_reuse (loss rollout : Nat → Rat) (interval : Nat)
    (rs : Rat) (n : Nat) (hi : 1 ≤ interval) (hn : 1 ≤ n) :
    ∃ st, dtRun loss rollout interval rs n = .ok st ∧
      st.log = (List.range n).map
        (fun i => (i, rollout (lastRoll interval i) / rs)) ∧
      st.eval_td = some (rollout (lastRoll interval (n - 1))) ∧
      (∀ i, i % interval = 0 → lastRoll interval i = i) ∧
      (∀ i, 1 ≤ i → ¬ i % interval = 0 →
        lastRoll interval i = lastRoll interval (i - 1)) ∧
      lastRoll interval 0 = 0 ∧ 0 % interval = 0 :=
  ⟨_, dtRun_closed_form loss rollout interval rs hi n hn, rfl, rfl,
    fun i h => lastRoll_of_mod_eq_zero interval i h,
    fun i h1 h2 => by
      have := lastRoll_succ interval i h1
      rwa [if_neg h2] at this,
    lastRoll_zero interval, Nat.zero_mod interval⟩

/-- Witness for C9: three iterations with cadence 2; iterations 0 and 2 run
rollouts, iteration 1 reuses the rollout of iteration 0. -/
theorem C9_eval_reward_stale_reuse_witness :
    ∃ st, dtRun (fun i => (i : Rat)) (fun i => (i : Rat)) 2 1 3 = .ok st ∧
      st.log = (List.range 3).map
        (fun i => (i, ((lastRoll 2 i : Nat) : Rat) / 1)) ∧
      st.eval_td = some (((lastRoll 2 (3 - 1) : Nat) : Rat)) ∧
      (∀ i, i % 2 = 0 → lastRoll 2 i = i) ∧
      (∀ i, 1 ≤ i → ¬ i % 2 = 0 → lastRoll 2 i = lastRoll 2 (i - 1)) ∧
      lastRoll 2 0 = 0 ∧ 0 % 2 = 0 :=
  C9_eval_reward_stale_reuse (fun i => (i : Rat)) (fun i => (i : Rat)) 2 1 3
    (by decide) (by decide)

end RL
